import Mathlib

/-!
Verification of the binary buffer session model of rust-mcp-filebuffer.

Shallow embedding of `src/state.rs` and `src/tools.rs`.  Machine integers
(`usize`, `u8`, `u64`) are modelled as `Nat`; bytes are `Nat` values
(every byte produced by the code is `< 256`).  Rust slicing
`&buf[a..b]`, which panics when `a > b` or `b > buf.len()`, is modelled
by `rustSlice`, returning `.panic` exactly in the panicking cases; each
tool returns an `Outcome` that is `.ok value state`, `.err e state`
(early return with the session untouched) or `.panicked` (process
abort).  The human-readable text envelope built with `format!` (hex
dumps, ASCII rendering, the SHA-256 digest rendering) is display-layer
formatting; the `.ok` payload is the semantic value the formatting is
applied to (the selected bytes, the match offsets, the decoded
integer, the byte count).  `ServerState.display` only prints and is
omitted.  File I/O in `LoadBinary` (`fs::read`) is modelled by an
explicit filesystem oracle `String → Except String (List Nat)` passed
to the operation.
-/

/-- The error taxonomy of the specification, classifying the
`CallToolError::from_message` strings the code produces:
`ioError` for "Failed to read file: …", `rangeError` for the bounds
messages ("Read exceeds buffer bounds", "Segment exceeds buffer
bounds", "Range exceeds buffer size", "Offset exceeds buffer size"),
`formatError` for "Invalid hex pattern: …" and
"Invalid size or endianness". -/
inductive ToolError where
  | ioError
  | rangeError
  | formatError
deriving DecidableEq, Repr

/-- A segment extracted from the buffer, `BinarySegment` of
`src/state.rs`: offset, an owned copy of the bytes, optional label. -/
structure BinarySegment where
  offset : Nat
  data : List Nat
  label : Option String
deriving DecidableEq, Repr

/-- The session state, `ServerState` of `src/state.rs`.  The
`HashMap<String, usize>` of bookmarks is modelled as an association
list; the claims only ever clear it or leave it untouched. -/
structure ServerState where
  buffer : List Nat
  file_loaded : Option String
  bookmarks : List (String × Nat)
  segments : List BinarySegment
  analysis_notes : List String
  output : String
deriving DecidableEq, Repr

/-- `ServerState::new` of `src/state.rs`: everything empty. -/
def ServerState.new : ServerState :=
  { buffer := []
    file_loaded := none
    bookmarks := []
    segments := []
    analysis_notes := []
    output := "" }

/-- Result of a Rust expression that can panic. -/
inductive PanicOr (α : Type) where
  | panic
  | value (v : α)
deriving DecidableEq, Repr

/-- Outcome of one tool call: success with a semantic payload and the
resulting session, an error (`CallToolError`) with the session exactly
as it was when the error was returned, or a panic of the process. -/
inductive Outcome (α : Type) where
  | ok (v : α) (s : ServerState)
  | err (e : ToolError) (s : ServerState)
  | panicked
deriving DecidableEq, Repr

/-- Rust slice `&xs[a..b]`: the sub-list from index `a` (inclusive) to
`b` (exclusive) when `a ≤ b ≤ xs.length`, a panic otherwise
("slice index starts at … but ends at …" / "range end index … out of
range"). -/
def rustSlice (xs : List Nat) (a b : Nat) : PanicOr (List Nat) :=
  if a ≤ b ∧ b ≤ xs.length then .value ((xs.drop a).take (b - a)) else .panic

/-- Value of one hex digit, as accepted by `hex::decode`. -/
def hexDigitVal (c : Char) : Option Nat :=
  if '0' ≤ c ∧ c ≤ '9' then some (c.toNat - 48)
  else if 'a' ≤ c ∧ c ≤ 'f' then some (c.toNat - 87)
  else if 'A' ≤ c ∧ c ≤ 'F' then some (c.toNat - 55)
  else none

/-- `hex::decode` on a list of characters: bytes from pairs of hex
digits; `none` on an odd number of digits or an invalid digit. -/
def hexDecodeList : List Char → Option (List Nat)
  | [] => some []
  | [_] => none
  | c1 :: c2 :: rest =>
    match hexDigitVal c1, hexDigitVal c2, hexDecodeList rest with
    | some hi, some lo, some bs => some ((16 * hi + lo) :: bs)
    | _, _, _ => none

/-- `hex::decode` of `SearchPattern::call_tool`. -/
def hexDecode (s : String) : Option (List Nat) :=
  hexDecodeList s.data

/-- The argument record of the `load_binary` tool. -/
structure LoadBinary where
  path : String
deriving DecidableEq, Repr

/-- `LoadBinary::call_tool`: read the whole file (the filesystem is the
oracle `fs`); on I/O failure return the error with the session
untouched; on success replace `buffer`, set `file_loaded`, clear
`bookmarks` and `segments`, and report the byte count. -/
def LoadBinary.call_tool (fs : String → Except String (List Nat))
    (a : LoadBinary) (s : ServerState) : Outcome Nat :=
  match fs a.path with
  | .error _ => .err .ioError s
  | .ok data =>
    .ok data.length
      { s with
        buffer := data
        file_loaded := some a.path
        bookmarks := []
        segments := [] }

/-- The argument record of the `read_bytes` tool. -/
structure ReadBytes where
  offset : Nat
  length : Nat
deriving DecidableEq, Repr

/-- `ReadBytes::call_tool`: bounds check `offset + length >
buffer.len()` first, then slice; the payload is the selected bytes
(the hex dump and ASCII rendering are formatting of them). -/
def ReadBytes.call_tool (a : ReadBytes) (s : ServerState) : Outcome (List Nat) :=
  if a.offset + a.length > s.buffer.length then .err .rangeError s
  else
    match rustSlice s.buffer a.offset (a.offset + a.length) with
    | .panic => .panicked
    | .value bytes => .ok bytes s

/-- The argument record of the `search_pattern` tool. -/
structure SearchPattern where
  pattern : String
deriving DecidableEq, Repr

/-- The scan loop of `SearchPattern::call_tool`: for each index `i` of
`idxs` in order, compare `&buffer[i..i + pattern.len()]` with the
pattern and collect the matching offsets; a panicking slice aborts. -/
def collectMatches (buffer pat : List Nat) : List Nat → PanicOr (List Nat)
  | [] => .value []
  | i :: rest =>
    match rustSlice buffer i (i + pat.length) with
    | .panic => .panic
    | .value w =>
      match collectMatches buffer pat rest with
      | .panic => .panic
      | .value ms => .value (if w = pat then i :: ms else ms)

/-- `SearchPattern::call_tool`: decode the hex pattern (invalid hex is
a format error), then scan `for i in 0..=buffer.len().saturating_sub(pattern.len())`
(saturating `Nat` subtraction; the inclusive range is
`List.range (len - m + 1)`); the payload is the list of match
offsets. -/
def SearchPattern.call_tool (a : SearchPattern) (s : ServerState) :
    Outcome (List Nat) :=
  match hexDecode a.pattern with
  | none => .err .formatError s
  | some pat =>
    match collectMatches s.buffer pat
        (List.range (s.buffer.length - pat.length + 1)) with
    | .panic => .panicked
    | .value ms => .ok ms s

/-- The argument record of the `extract_segment` tool. -/
structure ExtractSegment where
  offset : Nat
  length : Nat
  label : Option String
deriving DecidableEq, Repr

/-- `ExtractSegment::call_tool`: bounds check first (error leaves the
session untouched), then copy the slice with `.to_vec()` and push the
new segment. -/
def ExtractSegment.call_tool (a : ExtractSegment) (s : ServerState) :
    Outcome Unit :=
  if a.offset + a.length > s.buffer.length then .err .rangeError s
  else
    match rustSlice s.buffer a.offset (a.offset + a.length) with
    | .panic => .panicked
    | .value data =>
      .ok () { s with segments := s.segments ++ [⟨a.offset, data, a.label⟩] }

/-- The argument record of the `read_string` tool. -/
structure ReadString where
  offset : Nat
  max_length : Nat
deriving DecidableEq, Repr

/-- `ReadString::call_tool`: `end = min(offset + max_length, len)`,
slice `&buffer[offset..end]` (no check that `offset ≤ end`!), truncate
at the first zero byte; the payload is the resulting bytes
(`String::from_utf8_lossy` of them is the displayed text; the empty
byte list displays as the empty string). -/
def ReadString.call_tool (a : ReadString) (s : ServerState) : Outcome (List Nat) :=
  match rustSlice s.buffer a.offset (min (a.offset + a.max_length) s.buffer.length) with
  | .panic => .panicked
  | .value bytes =>
    .ok (bytes.take ((bytes.findIdx? (· = 0)).getD bytes.length)) s

/-- The argument record of the `read_integer` tool (`size` is a `u8`
in the source, so `size ≤ 255`; the embedding uses `Nat`). -/
structure ReadInteger where
  offset : Nat
  size : Nat
  endian : String
deriving DecidableEq, Repr

/-- The `match (self.size, self.endian.as_str())` of
`ReadInteger::call_tool`, on the sliced bytes `w` (little/big endian
base-256 value of exactly `size` bytes); `none` is the
"Invalid size or endianness" arm.  Size 1 matches `(1, _)` before any
endianness test. -/
def decodeInt (size : Nat) (endian : String) (w : List Nat) : Option Nat :=
  if size = 1 then some (w.getD 0 0)
  else if size = 2 ∧ endian = "little" then
    some (w.getD 0 0 + 256 * w.getD 1 0)
  else if size = 2 ∧ endian = "big" then
    some (w.getD 1 0 + 256 * w.getD 0 0)
  else if size = 4 ∧ endian = "little" then
    some (w.getD 0 0 + 256 * w.getD 1 0 + 256 ^ 2 * w.getD 2 0 + 256 ^ 3 * w.getD 3 0)
  else if size = 4 ∧ endian = "big" then
    some (w.getD 3 0 + 256 * w.getD 2 0 + 256 ^ 2 * w.getD 1 0 + 256 ^ 3 * w.getD 0 0)
  else if size = 8 ∧ endian = "little" then
    some (w.getD 0 0 + 256 * w.getD 1 0 + 256 ^ 2 * w.getD 2 0 + 256 ^ 3 * w.getD 3 0
      + 256 ^ 4 * w.getD 4 0 + 256 ^ 5 * w.getD 5 0 + 256 ^ 6 * w.getD 6 0
      + 256 ^ 7 * w.getD 7 0)
  else if size = 8 ∧ endian = "big" then
    some (w.getD 7 0 + 256 * w.getD 6 0 + 256 ^ 2 * w.getD 5 0 + 256 ^ 3 * w.getD 4 0
      + 256 ^ 4 * w.getD 3 0 + 256 ^ 5 * w.getD 2 0 + 256 ^ 6 * w.getD 1 0
      + 256 ^ 7 * w.getD 0 0)
  else none

/-- `ReadInteger::call_tool`: bounds check `offset + size >
buffer.len()` first, then slice `size` bytes and decode them; an
unmatched size/endian pair is a format error; the payload is the
decoded value. -/
def ReadInteger.call_tool (a : ReadInteger) (s : ServerState) : Outcome Nat :=
  if a.offset + a.size > s.buffer.length then .err .rangeError s
  else
    match rustSlice s.buffer a.offset (a.offset + a.size) with
    | .panic => .panicked
    | .value w =>
      match decodeInt a.size a.endian w with
      | some v => .ok v s
      | none => .err .formatError s

/-- The argument record of the `calculate_hash` tool. -/
structure CalculateHash where
  offset : Option Nat
  length : Option Nat
deriving DecidableEq, Repr

/-- `CalculateHash::call_tool`: `offset = self.offset.unwrap_or(0)`,
`end = self.length.map(|l| offset + l).unwrap_or(buffer.len())`, check
only `end > buffer.len()` (not `offset ≤ end`!), then slice
`&buffer[offset..end]`; the payload is the selected range (the SHA-256
digest printed by the tool is a pure function of it). -/
def CalculateHash.call_tool (a : CalculateHash) (s : ServerState) :
    Outcome (List Nat) :=
  let offset := a.offset.getD 0
  let stop :=
    match a.length with
    | some len => offset + len
    | none => s.buffer.length
  if stop > s.buffer.length then .err .rangeError s
  else
    match rustSlice s.buffer offset stop with
    | .panic => .panicked
    | .value data => .ok data s

/-- A populated session used to instantiate theorems at concrete
inputs: a 3-byte buffer with one bookmark, one segment, one note and
an output already set. -/
def demoState : ServerState :=
  { buffer := [1, 2, 3]
    file_loaded := some "old.bin"
    bookmarks := [("start", 0)]
    segments := [⟨1, [2], none⟩]
    analysis_notes := ["first note"]
    output := "prior" }

/-- demoState after extracting the segment `(0, 2, "hdr")`. -/
def demoExtracted : ServerState :=
  { demoState with segments := demoState.segments ++ [⟨0, [1, 2], some "hdr"⟩] }

/-- demoExtracted after a successful load of a 2-byte file. -/
def demoReloaded : ServerState :=
  { demoExtracted with
    buffer := [9, 9]
    file_loaded := some "new.bin"
    bookmarks := []
    segments := [] }

/-- Session whose buffer is the three bytes 0xAA 0xAA 0xAA. -/
def sAAA : ServerState := { ServerState.new with buffer := [170, 170, 170] }

/-- Session whose buffer is the two bytes 0x41 0x42. -/
def sAB : ServerState := { ServerState.new with buffer := [65, 66] }

/-- Session whose buffer is the single byte 0x07. -/
def s7 : ServerState := { ServerState.new with buffer := [7] }

/-- Session whose buffer is the two bytes 0x01 0x00. -/
def s01 : ServerState := { ServerState.new with buffer := [1, 0] }

theorem rustSlice_of_le {xs : List Nat} {a b : Nat} (h1 : a ≤ b)
    (h2 : b ≤ xs.length) :
    rustSlice xs a b = .value ((xs.drop a).take (b - a)) := by
  simp [rustSlice, h1, h2]

theorem rustSlice_add {xs : List Nat} {a n : Nat} (h : a + n ≤ xs.length) :
    rustSlice xs a (a + n) = .value ((xs.drop a).take n) := by
  rw [rustSlice_of_le (Nat.le_add_right a n) h, Nat.add_sub_cancel_left]

/-- Claim C1: for every session and all `offset`, `length` with
`offset + length > buffer.length`, ReadBytes, ExtractSegment,
CalculateHash (with both arguments supplied) and ReadInteger (with
`length` as the size) return the range error and leave the entire
session unchanged. -/
theorem bounds_error_leaves_session_unchanged
    (s : ServerState) (offset length : Nat) (label : Option String)
    (endian : String) (h : offset + length > s.buffer.length) :
    ReadBytes.call_tool ⟨offset, length⟩ s = .err .rangeError s ∧
    ExtractSegment.call_tool ⟨offset, length, label⟩ s = .err .rangeError s ∧
    CalculateHash.call_tool ⟨some offset, some length⟩ s = .err .rangeError s ∧
    ReadInteger.call_tool ⟨offset, length, endian⟩ s = .err .rangeError s := by
  refine ⟨?_, ?_, ?_, ?_⟩ <;>
    simp [ReadBytes.call_tool, ExtractSegment.call_tool,
      CalculateHash.call_tool, ReadInteger.call_tool, h]

/-- Witness for C1 at the initial session with `offset = 0`,
`length = 1`. -/
theorem bounds_error_leaves_session_unchanged_witness :
    (0 : Nat) + 1 > ServerState.new.buffer.length ∧
    (ReadBytes.call_tool ⟨0, 1⟩ ServerState.new = .err .rangeError ServerState.new ∧
     ExtractSegment.call_tool ⟨0, 1, some "x"⟩ ServerState.new =
       .err .rangeError ServerState.new ∧
     CalculateHash.call_tool ⟨some 0, some 1⟩ ServerState.new =
       .err .rangeError ServerState.new ∧
     ReadInteger.call_tool ⟨0, 1, "little"⟩ ServerState.new =
       .err .rangeError ServerState.new) :=
  ⟨by decide,
   bounds_error_leaves_session_unchanged ServerState.new 0 1 (some "x") "little"
     (by decide)⟩

/-- Claim C2 (code bug): the three argument patterns the claim names do
panic instead of being caught before slicing — ReadString with
`offset` beyond the buffer slices `buffer[1..0]`, CalculateHash with
an offset but no length slices `buffer[2..0]`, and SearchPattern with
a valid two-byte pattern against the empty buffer slices
`buffer[0..2]`. -/
theorem panic_cases_contradict_no_panic_claim :
    ReadString.call_tool ⟨1, 0⟩ ServerState.new = .panicked ∧
    CalculateHash.call_tool ⟨some 2, none⟩ ServerState.new = .panicked ∧
    SearchPattern.call_tool ⟨"AABB"⟩ ServerState.new = .panicked := by
  decide

/-- Claim C3: a failed load returns the I/O error and leaves the whole
session exactly as it was. -/
theorem load_failure_leaves_session_unmodified
    (fs : String → Except String (List Nat)) (path : String)
    (s : ServerState) (msg : String) (h : fs path = .error msg) :
    LoadBinary.call_tool fs ⟨path⟩ s = .err .ioError s := by
  simp [LoadBinary.call_tool, h]

/-- Witness for C3: a filesystem oracle that always fails, applied to
the populated demo session. -/
theorem load_failure_leaves_session_unmodified_witness :
    (fun _ : String => (Except.error "No such file" : Except String (List Nat)))
        "missing.bin" = Except.error "No such file" ∧
    LoadBinary.call_tool (fun _ => Except.error "No such file") ⟨"missing.bin"⟩
        demoState = .err .ioError demoState :=
  ⟨rfl,
   load_failure_leaves_session_unmodified (fun _ => Except.error "No such file")
     "missing.bin" demoState "No such file" rfl⟩

/-- Claim C4: a successful load replaces the buffer wholesale, sets the
loaded source, clears bookmarks and segments regardless of their prior
contents, and leaves notes and output unchanged. -/
theorem load_success_resets_derived_state
    (fs : String → Except String (List Nat)) (path : String)
    (s : ServerState) (d : List Nat) (h : fs path = .ok d) :
    LoadBinary.call_tool fs ⟨path⟩ s =
      .ok d.length
        { buffer := d
          file_loaded := some path
          bookmarks := []
          segments := []
          analysis_notes := s.analysis_notes
          output := s.output } := by
  simp [LoadBinary.call_tool, h]

/-- Witness for C4 at the populated demo session, loading a 2-byte
file: bookmarks and segments are cleared, notes and output kept. -/
theorem load_success_resets_derived_state_witness :
    (fun _ : String => (Except.ok [9, 9] : Except String (List Nat)))
        "new.bin" = Except.ok [9, 9] ∧
    LoadBinary.call_tool (fun _ => Except.ok [9, 9]) ⟨"new.bin"⟩ demoState =
      .ok 2
        { buffer := [9, 9]
          file_loaded := some "new.bin"
          bookmarks := []
          segments := []
          analysis_notes := demoState.analysis_notes
          output := demoState.output } :=
  ⟨rfl,
   load_success_resets_derived_state (fun _ => Except.ok [9, 9]) "new.bin"
     demoState [9, 9] rfl⟩

/-- Counterexample to claim C5 as stated: extract the segment
`(0, 2, "hdr")` from the demo session, then successfully load a new
file; the segment list is now empty, so the previously stored segment
(with its copied data `[1, 2]`) is gone from the session rather than
unchanged. -/
theorem segment_cleared_by_load_cex :
    ExtractSegment.call_tool ⟨0, 2, some "hdr"⟩ demoState = .ok () demoExtracted ∧
    LoadBinary.call_tool (fun _ => Except.ok [9, 9]) ⟨"new.bin"⟩ demoExtracted =
      .ok 2 demoReloaded ∧
    demoReloaded.segments = [] ∧
    ¬ (BinarySegment.mk 0 [1, 2] (some "hdr") ∈ demoReloaded.segments) := by
  decide

/-- Claim C5 as amended: a successful ExtractSegment appends a segment
whose data is a copy of the buffer bytes of the extracted range taken
at extraction time, but a subsequent successful Load clears the
segment list (no segment survives a Load); the load still leaves notes
and output unchanged. -/
theorem extract_copies_and_load_clears
    (s : ServerState) (offset length : Nat) (label : Option String)
    (fs : String → Except String (List Nat)) (path : String) (d : List Nat)
    (h1 : offset + length ≤ s.buffer.length) (h2 : fs path = .ok d) :
    ExtractSegment.call_tool ⟨offset, length, label⟩ s =
      .ok ()
        { s with segments :=
            s.segments ++ [⟨offset, (s.buffer.drop offset).take length, label⟩] } ∧
    LoadBinary.call_tool fs ⟨path⟩
        { s with segments :=
            s.segments ++ [⟨offset, (s.buffer.drop offset).take length, label⟩] } =
      .ok d.length
        { buffer := d
          file_loaded := some path
          bookmarks := []
          segments := []
          analysis_notes := s.analysis_notes
          output := s.output } := by
  constructor
  · have hb : ¬ (offset + length > s.buffer.length) := by omega
    simp [ExtractSegment.call_tool, hb, rustSlice_add h1]
  · simp [LoadBinary.call_tool, h2]

/-- Witness for C5 (amended) at the AA-buffer session: extract bytes
`[170, 170]` at offset 1, then load a 1-byte file. -/
theorem extract_copies_and_load_clears_witness :
    (1 : Nat) + 2 ≤ sAAA.buffer.length ∧
    (fun _ : String => (Except.ok [5] : Except String (List Nat)))
        "tiny.bin" = Except.ok [5] ∧
    (ExtractSegment.call_tool ⟨1, 2, none⟩ sAAA =
      .ok ()
        { sAAA with segments :=
            sAAA.segments ++ [⟨1, (sAAA.buffer.drop 1).take 2, none⟩] } ∧
    LoadBinary.call_tool (fun _ => Except.ok [5]) ⟨"tiny.bin"⟩
        { sAAA with segments :=
            sAAA.segments ++ [⟨1, (sAAA.buffer.drop 1).take 2, none⟩] } =
      .ok 1
        { buffer := [5]
          file_loaded := some "tiny.bin"
          bookmarks := []
          segments := []
          analysis_notes := sAAA.analysis_notes
          output := sAAA.output }) :=
  ⟨by decide, rfl,
   extract_copies_and_load_clears sAAA 1 2 none (fun _ => Except.ok [5])
     "tiny.bin" [5] (by decide) rfl⟩

theorem collectMatches_eq_filter (buffer pat : List Nat) (idxs : List Nat)
    (h : ∀ i ∈ idxs, i + pat.length ≤ buffer.length) :
    collectMatches buffer pat idxs =
      .value (idxs.filter fun i => decide ((buffer.drop i).take pat.length = pat)) := by
  induction idxs with
  | nil => rfl
  | cons i rest ih =>
    have hi : i + pat.length ≤ buffer.length := h i (List.mem_cons_self i rest)
    have hrest := ih fun j hj => h j (List.mem_cons_of_mem i hj)
    simp only [collectMatches, rustSlice_add hi, hrest, List.filter_cons]
    by_cases hw : (buffer.drop i).take pat.length = pat <;> simp [hw]

/-- Counterexample to claim C6 as stated: against the empty initial
buffer there is no valid start index for the one-byte pattern 0xBB, so
the claim says SearchPattern returns the empty match list; the code
instead slices `buffer[0..1]` of the empty buffer and panics (the
`saturating_sub` still leaves `i = 0` in the inclusive scan range). -/
theorem search_long_pattern_panics_cex :
    SearchPattern.call_tool ⟨"BB"⟩ ServerState.new = .panicked ∧
    SearchPattern.call_tool ⟨"BB"⟩ ServerState.new ≠
      .ok [] ServerState.new := by
  decide

/-- Claim C6 as amended: for every buffer and non-empty decoded pattern
of length `m ≤ buffer.length`, SearchPattern returns exactly the
offsets `i` in `0 .. buffer.length - m` (inclusive) at which the `m`
bytes starting at `i` equal the pattern (the filter of the full
candidate range), in ascending order with overlapping matches
included; for buffer `[0xAA, 0xAA, 0xAA]` and pattern "AA" it returns
`[0, 1, 2]`.  (For `m > buffer.length` the code panics instead of
returning the empty list.) -/
theorem search_matches_filter (s : ServerState) (str : String) (pat : List Nat)
    (h1 : hexDecode str = some pat) (_h2 : pat ≠ [])
    (h3 : pat.length ≤ s.buffer.length) :
    SearchPattern.call_tool ⟨str⟩ s =
      .ok ((List.range (s.buffer.length - pat.length + 1)).filter
        fun i => decide ((s.buffer.drop i).take pat.length = pat)) s ∧
    List.Pairwise (· < ·)
      ((List.range (s.buffer.length - pat.length + 1)).filter
        fun i => decide ((s.buffer.drop i).take pat.length = pat)) ∧
    (∀ i : Nat,
      (i ∈ (List.range (s.buffer.length - pat.length + 1)).filter
          (fun i => decide ((s.buffer.drop i).take pat.length = pat)) ↔
        i + pat.length ≤ s.buffer.length ∧
          (s.buffer.drop i).take pat.length = pat)) ∧
    SearchPattern.call_tool ⟨"AA"⟩ sAAA = .ok [0, 1, 2] sAAA := by
  have hidx : ∀ i ∈ List.range (s.buffer.length - pat.length + 1),
      i + pat.length ≤ s.buffer.length := by
    intro i hi
    have := List.mem_range.mp hi
    omega
  refine ⟨?_, ?_, ?_, by decide⟩
  · simp only [SearchPattern.call_tool, h1,
      collectMatches_eq_filter s.buffer pat _ hidx]
  · exact (List.pairwise_lt_range _).filter _
  · intro i
    simp only [List.mem_filter, List.mem_range, decide_eq_true_eq]
    constructor
    · rintro ⟨hr, hp⟩
      exact ⟨by omega, hp⟩
    · rintro ⟨hr, hp⟩
      exact ⟨by omega, hp⟩

/-- Witness for C6 (amended) at buffer `[0xAA, 0xAA, 0xAA]` and pattern
"AA". -/
theorem search_matches_filter_witness :
    hexDecode "AA" = some [170] ∧ ([170] : List Nat) ≠ [] ∧
    ([170] : List Nat).length ≤ sAAA.buffer.length ∧
    (SearchPattern.call_tool ⟨"AA"⟩ sAAA =
      .ok ((List.range (sAAA.buffer.length - ([170] : List Nat).length + 1)).filter
        fun i => decide ((sAAA.buffer.drop i).take ([170] : List Nat).length = [170])) sAAA ∧
    List.Pairwise (· < ·)
      ((List.range (sAAA.buffer.length - ([170] : List Nat).length + 1)).filter
        fun i => decide ((sAAA.buffer.drop i).take ([170] : List Nat).length = [170])) ∧
    (∀ i : Nat,
      (i ∈ (List.range (sAAA.buffer.length - ([170] : List Nat).length + 1)).filter
          (fun i => decide ((sAAA.buffer.drop i).take ([170] : List Nat).length = [170])) ↔
        i + ([170] : List Nat).length ≤ sAAA.buffer.length ∧
          (sAAA.buffer.drop i).take ([170] : List Nat).length = [170])) ∧
    SearchPattern.call_tool ⟨"AA"⟩ sAAA = .ok [0, 1, 2] sAAA) :=
  ⟨by decide, by decide, by decide,
   search_matches_filter sAAA "AA" [170] (by decide) (by decide) (by decide)⟩

/-- Counterexample to claim C7 as stated: on the empty initial buffer
the empty pattern yields one match (at offset 0), not zero matches —
the scan compares the empty slice `buffer[0..0]` with the empty
pattern and records a match. -/
theorem search_empty_pattern_matches_cex :
    SearchPattern.call_tool ⟨""⟩ ServerState.new = .ok [0] ServerState.new ∧
    SearchPattern.call_tool ⟨""⟩ ServerState.new ≠ .ok [] ServerState.new := by
  decide

/-- Claim C7 as amended: a non-hex pattern string yields the format
error (session untouched), and the empty pattern succeeds without
error but returns a match at every offset `0 .. buffer.length`
inclusive — `buffer.length + 1` matches — rather than zero matches. -/
theorem search_invalid_hex_and_empty_pattern (s : ServerState) (str : String)
    (h : hexDecode str = none) :
    SearchPattern.call_tool ⟨str⟩ s = .err .formatError s ∧
    SearchPattern.call_tool ⟨""⟩ s = .ok (List.range (s.buffer.length + 1)) s := by
  constructor
  · simp [SearchPattern.call_tool, h]
  · have hidx : ∀ i ∈ List.range (s.buffer.length + 1),
        i + ([] : List Nat).length ≤ s.buffer.length := by
      intro i hi
      have := List.mem_range.mp hi
      simp only [List.length_nil, Nat.add_zero]
      omega
    have hcm := collectMatches_eq_filter s.buffer []
      (List.range (s.buffer.length + 1)) hidx
    have hdec : hexDecode "" = some [] := rfl
    simp [SearchPattern.call_tool, hdec, hcm]

/-- Witness for C7 (amended) with the non-hex pattern "XZ" on the
demo session. -/
theorem search_invalid_hex_and_empty_pattern_witness :
    hexDecode "XZ" = none ∧
    (SearchPattern.call_tool ⟨"XZ"⟩ demoState = .err .formatError demoState ∧
     SearchPattern.call_tool ⟨""⟩ demoState =
       .ok (List.range (demoState.buffer.length + 1)) demoState) :=
  ⟨by decide, search_invalid_hex_and_empty_pattern demoState "XZ" (by decide)⟩

/-- Claim C8 (code bug): ReadString with an offset beyond the buffer
panics instead of returning the empty string — with buffer
`[0x41, 0x42]` and offset 5, `end = min(5 + 10, 2) = 2 < 5` and the
slice `buffer[5..2]` panics. -/
theorem read_string_beyond_buffer_panics :
    ReadString.call_tool ⟨5, 10⟩ sAB = .panicked := by
  decide

/-- Counterexample to claim C9 as stated: with a 1-byte buffer, size 1
and the invalid endianness "middle", ReadInteger succeeds and returns
the byte rather than yielding the format error — the `(1, _)` match
arm accepts any endian string. -/
theorem read_integer_size1_bad_endian_cex :
    ReadInteger.call_tool ⟨0, 1, "middle"⟩ s7 = .ok 7 s7 ∧
    ReadInteger.call_tool ⟨0, 1, "middle"⟩ s7 ≠ .err .formatError s7 := by
  decide

/-- Claim C9 as amended: with `offset + size ≤ buffer.length`,
ReadInteger decodes exactly `size` bytes at `offset` per `decodeInt`
(the little/big-endian base-256 value of that width), where size 1
ignores endianness entirely; bytes `[0x01, 0x00]` at size 2 decode to
1 little-endian and 256 big-endian; and the format error is returned
exactly when the size is outside `{1, 2, 4, 8}` or the size is in
`{2, 4, 8}` with an endianness outside `{"little", "big"}` (with size
1 the endianness is never validated, and a bounds violation is
reported as the range error before any size/endian validation). -/
theorem read_integer_decode_spec (s : ServerState) (offset size : Nat)
    (endian : String) (w : List Nat) (h : offset + size ≤ s.buffer.length) :
    ReadInteger.call_tool ⟨offset, size, endian⟩ s =
      (match decodeInt size endian ((s.buffer.drop offset).take size) with
       | some v => .ok v s
       | none => .err .formatError s) ∧
    decodeInt 1 endian w = some (w.getD 0 0) ∧
    (decodeInt size endian w = none ↔
      ¬ (size = 1 ∨ ((size = 2 ∨ size = 4 ∨ size = 8) ∧
          (endian = "little" ∨ endian = "big")))) ∧
    ReadInteger.call_tool ⟨0, 2, "little"⟩ s01 = .ok 1 s01 ∧
    ReadInteger.call_tool ⟨0, 2, "big"⟩ s01 = .ok 256 s01 := by
  refine ⟨?_, by simp [decodeInt], ?_, by decide, by decide⟩
  · have hb : ¬ (offset + size > s.buffer.length) := by omega
    simp only [ReadInteger.call_tool, hb, if_false, rustSlice_add h]
  · unfold decodeInt
    split_ifs <;> first
      | (simp_all; tauto)
      | simp_all

/-- Witness for C9 (amended) at buffer `[0x01, 0x00]`, offset 0,
size 2, little endianness. -/
theorem read_integer_decode_spec_witness :
    (0 : Nat) + 2 ≤ s01.buffer.length ∧
    (ReadInteger.call_tool ⟨0, 2, "little"⟩ s01 =
      (match decodeInt 2 "little" ((s01.buffer.drop 0).take 2) with
       | some v => .ok v s01
       | none => .err .formatError s01) ∧
    decodeInt 1 "little" [7, 8] = some (([7, 8] : List Nat).getD 0 0) ∧
    (decodeInt 2 "little" [7, 8] = none ↔
      ¬ ((2 : Nat) = 1 ∨ (((2 : Nat) = 2 ∨ (2 : Nat) = 4 ∨ (2 : Nat) = 8) ∧
          ("little" = "little" ∨ "little" = "big")))) ∧
    ReadInteger.call_tool ⟨0, 2, "little"⟩ s01 = .ok 1 s01 ∧
    ReadInteger.call_tool ⟨0, 2, "big"⟩ s01 = .ok 256 s01) :=
  ⟨by decide, read_integer_decode_spec s01 0 2 "little" [7, 8] (by decide)⟩

theorem takeOne_getD (xs : List Nat) (i : Nat) (h : i < xs.length) :
    ((xs.drop i).take 1).getD 0 0 = xs.getD i 0 := by
  induction xs generalizing i with
  | nil => simp at h
  | cons a t ih =>
    cases i with
    | zero => simp
    | succ j =>
      have hj : j < t.length := by
        simp only [List.length_cons] at h
        omega
      simp only [List.drop_succ_cons, List.getD_cons_succ]
      exact ih j hj

/-- Claim C10: when size is 1 and `offset + 1 ≤ buffer.length`,
ReadInteger succeeds for every endian string whatsoever and returns
the byte at `offset`; the endian argument is not validated at all when
size is 1. -/
theorem read_integer_size1_ignores_endian (s : ServerState) (offset : Nat)
    (endian : String) (h : offset + 1 ≤ s.buffer.length) :
    ReadInteger.call_tool ⟨offset, 1, endian⟩ s =
      .ok (s.buffer.getD offset 0) s := by
  have hb : ¬ (offset + 1 > s.buffer.length) := by omega
  have hg := takeOne_getD s.buffer offset (by omega)
  simp [ReadInteger.call_tool, hb, rustSlice_add h, decodeInt, hg]

/-- Witness for C10 at buffer `[0x07]`, offset 0 and the nonsense
endianness "weird". -/
theorem read_integer_size1_ignores_endian_witness :
    (0 : Nat) + 1 ≤ s7.buffer.length ∧
    ReadInteger.call_tool ⟨0, 1, "weird"⟩ s7 = .ok (s7.buffer.getD 0 0) s7 :=
  ⟨by decide, read_integer_size1_ignores_endian s7 0 "weird" (by decide)⟩
